import Mathlib

set_option maxRecDepth 4000

/-!
Verification development for the MARG sensor-fusion core
(Sources/fusion/sensor_fusion.c of the frdm-kl25z-marg-fusion firmware).

The fusion core is embedded shallowly: every function of sensor_fusion.c
that the properties below mention is translated into an executable Lean
definition over a record of the process-wide mutable state.  The firmware
works on Q16.16 signed fixed-point numbers (raw two's-complement integers,
1.0 = 65536); these raw values are modelled as unbounded Int with the
scaling made explicit, so all facts proved here are about the raw integer
representation the firmware manipulates.

The fixed-point math library (libfixmath) and the Kalman primitive library
(libfixkalman) are vendored dependencies of the repository that are not
part of the fusion source; their operations are modelled from the
specification's contracts and are marked as such in their doc comments.
-/

/-- Raw Q16.16 fixed-point value (two's-complement integer, 1.0 = 65536). -/
abbrev fix16_t := Int

/-- Modelled from the spec: Q16.16 addition of the external math library.
The library flags 32-bit overflow through a sticky error word that the
fusion core never inspects; the model uses exact integer addition. -/
def fix16_add (a b : fix16_t) : fix16_t := a + b

/-- Modelled from the spec: Q16.16 subtraction of the external math library. -/
def fix16_sub (a b : fix16_t) : fix16_t := a - b

/-- Modelled from the spec: Q16.16 multiplication of the external math
library, a 64-bit product scaled back down with round-to-nearest. -/
def fix16_mul (a b : fix16_t) : fix16_t := Int.fdiv (a * b + 32768) 65536

/-- Modelled from the spec: Q16.16 division of the external math library.
Division by zero is degenerate in the library (it yields a sentinel raw
value, not a quotient); the model returns 0 in that case, which like the
sentinel is not a valid normalisation quotient. -/
def fix16_div (a b : fix16_t) : fix16_t := if b = 0 then 0 else Int.fdiv (a * 65536) b

/-- Modelled from the spec: Q16.16 square of the external math library. -/
def fix16_sq (a : fix16_t) : fix16_t := fix16_mul a a

/-- Modelled from the spec: Q16.16 absolute value of the external math library. -/
def fix16_abs (a : fix16_t) : fix16_t := if a < 0 then -a else a

/-- Digit-recurrence integer square root on naturals, structurally
recursive on a fuel argument so that it evaluates by plain reduction:
the floor square root of n is twice the floor square root of n / 4,
possibly plus one. -/
def nsqrtAux (fuel : Nat) (n : Nat) : Nat :=
  match fuel with
  | 0 => 0
  | f + 1 =>
    if n < 2 then n
    else
      let r := 2 * nsqrtAux f (n / 4)
      if (r + 1) * (r + 1) ≤ n then r + 1 else r

/-- Floor square root of a natural number (64 fuel levels cover every
value below 4 to the power 64). -/
def nsqrt (n : Nat) : Nat := nsqrtAux 64 n

/-- Modelled from the spec: Q16.16 square root of the external math library,
the integer square root of the raw value rescaled into Q16.16.  Negative
inputs are degenerate and map to 0. -/
def fix16_sqrt (a : fix16_t) : fix16_t := Int.ofNat (nsqrt (a.toNat * 65536))

/-- Embedded from sensor_fusion.c (norm3): Q16.16 Euclidean norm of a
three-component vector. -/
def norm3 (a b c : fix16_t) : fix16_t :=
  fix16_sqrt (fix16_add (fix16_sq a) (fix16_add (fix16_sq b) (fix16_sq c)))

/-- Three-component Q16.16 vector (v3d of the math library). -/
structure V3 where
  x : fix16_t
  y : fix16_t
  z : fix16_t
  deriving DecidableEq

/-- Modelled from the spec: v3d_norm of the external math library, the
Q16.16 Euclidean norm of a three-component vector. -/
def v3d_norm (v : V3) : fix16_t := norm3 v.x v.y v.z

/-- Cross product of two Q16.16 vectors, component formulas as used
throughout sensor_fusion.c. -/
def v3cross (u v : V3) : V3 :=
  ⟨fix16_sub (fix16_mul u.y v.z) (fix16_mul u.z v.y),
   fix16_sub (fix16_mul u.z v.x) (fix16_mul u.x v.z),
   fix16_sub (fix16_mul u.x v.y) (fix16_mul u.y v.x)⟩

/-- Normalisation of a Q16.16 vector by its norm3, as inlined in
sensor_fusion.c after each cross product. -/
def v3normalize (u : V3) : V3 :=
  let n := norm3 u.x u.y u.z
  ⟨fix16_div u.x n, fix16_div u.y n, fix16_div u.z n⟩

/-- Dense Q16.16 matrix, row-major (mf16 of the math library).  The fusion
core only ever addresses cells inside the allocated 6-by-6 (or 3-by-6,
3-by-3) areas, so the dimension and overflow sticky bits of the error word
are not modelled. -/
abbrev Mat := List (List fix16_t)

/-- Read one cell of a matrix (out-of-range reads yield 0, matching the
zero fill of freshly initialized library matrices). -/
def mGet (m : Mat) (i j : Nat) : fix16_t := ((m.getD i []).getD j 0)

/-- Write one cell of a matrix (matrix_set of sensor_fusion.c; the
assertion-guarded macro only ever runs in range). -/
def mSet (m : Mat) (i j : Nat) (v : fix16_t) : Mat :=
  m.set i ((m.getD i []).set j v)

/-- Zero matrix with r rows and c columns. -/
def mZero (r c : Nat) : Mat := List.replicate r (List.replicate c 0)

/-- Modelled from the spec: mf16_fill_diagonal of the external matrix
library writes v on the main diagonal and 0 elsewhere. -/
def mf16_fill_diagonal (n : Nat) (v : fix16_t) : Mat :=
  (List.range n).map (fun i => (List.range n).map (fun j => if i = j then v else 0))

/-- Matrix transpose. -/
def mTranspose (m : Mat) : Mat :=
  (List.range ((m.getD 0 []).length)).map (fun j => m.map (fun row => row.getD j 0))

/-- Q16.16 dot product of two rows. -/
def fixDot (r c : List fix16_t) : fix16_t :=
  (List.zipWith fix16_mul r c).foldl fix16_add 0

/-- Q16.16 matrix product. -/
def mMul (a b : Mat) : Mat :=
  let bt := mTranspose b
  a.map (fun row => bt.map (fun col => fixDot row col))

/-- Entrywise Q16.16 matrix sum. -/
def mAdd (a b : Mat) : Mat := List.zipWith (List.zipWith fix16_add) a b

/-- Entrywise Q16.16 matrix difference. -/
def mSub (a b : Mat) : Mat := List.zipWith (List.zipWith fix16_sub) a b

/-- One Gauss-Jordan elimination step on an augmented matrix: scale the
pivot row and clear column j everywhere else.  Q16.16 arithmetic. -/
def gaussStep (aug : Mat) (j : Nat) : Mat :=
  let p := mGet aug j j
  let nr := (aug.getD j []).map (fun v => fix16_div v p)
  let aug1 := aug.set j nr
  (List.range aug1.length).foldl
    (fun acc i =>
      if i = j then acc
      else
        let f := mGet acc i j
        acc.set i (List.zipWith (fun a b => fix16_sub a (fix16_mul f b)) (acc.getD i []) nr))
    aug1

/-- Modelled from the spec: matrix inverse in Q16.16 by Gauss-Jordan
elimination without pivot search (the observation-noise sums the fusion
core inverts are strongly diagonally dominant).  The spec only fixes the
mathematical inverse in the Kalman gain; the elimination order is a model
choice. -/
def mInv (n : Nat) (m : Mat) : Mat :=
  let aug : Mat := (List.range n).map
    (fun i => (m.getD i []) ++ (List.range n).map (fun j => if i = j then (65536 : fix16_t) else 0))
  (((List.range n).foldl gaussStep aug).map (fun r => r.drop n))

/-- State column vector of one 6-state filter: axis row (c1, c2, c3) and
body-frame angular velocity (w1, w2, w3), all raw Q16.16. -/
structure StateVec where
  c1 : fix16_t
  c2 : fix16_t
  c3 : fix16_t
  w1 : fix16_t
  w2 : fix16_t
  w3 : fix16_t
  deriving DecidableEq

/-- State vector as a 6-by-1 column matrix. -/
def StateVec.toCol (x : StateVec) : Mat :=
  [[x.c1], [x.c2], [x.c3], [x.w1], [x.w2], [x.w3]]

/-- State vector read back from a 6-by-1 column matrix. -/
def StateVec.ofCol (m : Mat) : StateVec :=
  ⟨mGet m 0 0, mGet m 1 0, mGet m 2 0, mGet m 3 0, mGet m 4 0, mGet m 5 0⟩

/-- One uncontrolled Kalman filter instance (kalman16_uc_t): state x,
transition A, covariance P, process noise Q. -/
structure Kalman16UC where
  x : StateVec
  A : Mat
  P : Mat
  Q : Mat
  deriving DecidableEq

/-- One Kalman observation instance (kalman16_observation_t): observation
model H, measurement noise R, measurement column z. -/
structure Kalman16Obs where
  H : Mat
  R : Mat
  z : List fix16_t
  deriving DecidableEq

/-- Measurement column as an n-by-1 matrix. -/
def colOf (z : List fix16_t) : Mat := z.map (fun v => [v])

/-- Modelled from the spec: kalman_predict_P_uc of the external Kalman
library advances the covariance by P to A.P.At + Q in Q16.16. -/
def kalman_predict_P_uc (kf : Kalman16UC) : Mat :=
  mAdd (mMul (mMul kf.A kf.P) (mTranspose kf.A)) kf.Q

/-- Modelled from the spec: kalman_correct_uc of the external Kalman
library.  Standard gain K = P.Ht.inv(H.P.Ht + R), state update
x to x + K.(z - H.x), and Joseph-form covariance update
P to (I - K.H).P.(I - K.H)t + K.R.Kt, all in Q16.16.  Returns the
corrected state vector and covariance (the primitive writes only these
two fields of the filter). -/
def kalman_correct_uc (kf : Kalman16UC) (kfm : Kalman16Obs) : StateVec × Mat :=
  let xc := kf.x.toCol
  let Ht := mTranspose kfm.H
  let S := mAdd (mMul (mMul kfm.H kf.P) Ht) kfm.R
  let K := mMul (mMul kf.P Ht) (mInv kfm.H.length S)
  let innov := mSub (colOf kfm.z) (mMul kfm.H xc)
  let x2 := mAdd xc (mMul K innov)
  let IKH := mSub (mf16_fill_diagonal 6 65536) (mMul K kfm.H)
  let P2 := mAdd (mMul (mMul IKH kf.P) (mTranspose IKH)) (mMul (mMul K kfm.R) (mTranspose K))
  (StateVec.ofCol x2, P2)

/-- The process-wide mutable state of sensor_fusion.c: the two filters,
the three observation instances, the latched sample buffers and the
bootstrap flags. -/
structure FusionState where
  kf_attitude : Kalman16UC
  kf_orientation : Kalman16UC
  kfm_accel : Kalman16Obs
  kfm_magneto : Kalman16Obs
  kfm_gyro : Kalman16Obs
  m_accelerometer : V3
  m_gyroscope : V3
  m_magnetometer : V3
  m_have_accelerometer : Bool
  m_have_gyroscope : Bool
  m_have_magnetometer : Bool
  m_attitude_bootstrapped : Bool
  m_orientation_bootstrapped : Bool
  deriving DecidableEq

/-- Embedded from sensor_fusion.c: the Q16.16 constants of the fusion core
(F16 rounds to the nearest raw value).  initial_r_axis = F16(0.05). -/
def initial_r_axis : fix16_t := 3277

/-- Embedded from sensor_fusion.c: initial_r_projection = F16(0.02). -/
def initial_r_projection : fix16_t := 1311

/-- Embedded from sensor_fusion.c: initial_r_gyro = F16(0.02). -/
def initial_r_gyro : fix16_t := 1311

/-- Embedded from sensor_fusion.c: q_axis = F16(0) (testing switches are
compiled out, TEST_ENABLED is 0). -/
def q_axis : fix16_t := 0

/-- Embedded from sensor_fusion.c: q_gyro = F16(1). -/
def q_gyro : fix16_t := 65536

/-- Embedded from sensor_fusion.c: alpha1 = F16(5). -/
def alpha1 : fix16_t := 327680

/-- Embedded from sensor_fusion.c: alpha2 = F16(0.8). -/
def alpha2 : fix16_t := 52429

/-- Embedded from sensor_fusion.c: attitude_threshold = F16(0.14). -/
def attitude_threshold : fix16_t := 9175

/-- Embedded from sensor_fusion.c (update_state_matrix_from_state): write
the six nonzero off-diagonal entries of A from the current axis row scaled
by deltaT. -/
def update_state_matrix_from_state (kf : Kalman16UC) (deltaT : fix16_t) : Kalman16UC :=
  let c1 := kf.x.c1
  let c2 := kf.x.c2
  let c3 := kf.x.c3
  let A1 := mSet kf.A 0 4 (fix16_mul c3 deltaT)
  let A2 := mSet A1 0 5 (-(fix16_mul c2 deltaT))
  let A3 := mSet A2 1 3 (-(fix16_mul c3 deltaT))
  let A4 := mSet A3 1 5 (fix16_mul c1 deltaT)
  let A5 := mSet A4 2 3 (fix16_mul c2 deltaT)
  let A6 := mSet A5 2 4 (-(fix16_mul c1 deltaT))
  { kf with A := A6 }

/-- Embedded from sensor_fusion.c (initialize_system_filter): zero the
filter, set A to the identity refreshed from the zero state with dT = 1,
seed the P diagonal with (5,5,5,1,1,1) and the Q diagonal with
(q_axis leading, q_gyro trailing).  kalman_filter_initialize_uc of the
external library zeroes x, A, P and Q. -/
def initialize_system_filter : Kalman16UC :=
  let kf : Kalman16UC := ⟨⟨0, 0, 0, 0, 0, 0⟩, mZero 6 6, mZero 6 6, mZero 6 6⟩
  let kf := { kf with A := mf16_fill_diagonal 6 65536 }
  let kf := update_state_matrix_from_state kf 65536
  let P := mSet (mSet (mSet (mSet (mSet (mSet kf.P 0 0 327680) 1 1 327680) 2 2 327680) 3 3 65536) 4 4 65536) 5 5 65536
  let Q := mSet (mSet (mSet (mSet (mSet (mSet kf.Q 0 0 q_axis) 1 1 q_axis) 2 2 q_axis) 3 3 q_gyro) 4 4 q_gyro) 5 5 q_gyro
  { kf with P := P, Q := Q }

/-- Embedded from sensor_fusion.c (initialize_system): both filters are
initialized, then the initial state estimates are written.  The source
assigns the raw integer 1 (not F16(1) = 65536) to the third attitude
component and the second orientation component; the embedding keeps that
raw value. -/
def initialize_system : Kalman16UC × Kalman16UC :=
  let ori := initialize_system_filter
  let att := initialize_system_filter
  let att := { att with x := { att.x with c1 := 0, c2 := 0, c3 := 1 } }
  let ori := { ori with x := { ori.x with c1 := 0, c2 := 1, c3 := 0 } }
  (att, ori)

/-- Embedded from sensor_fusion.c (update_measurement_noise): overwrite
the six diagonal entries of a 6-observation R. -/
def update_measurement_noise (kfm : Kalman16Obs) (axisXYZ gyroXYZ : fix16_t) : Kalman16Obs :=
  let R := mSet (mSet (mSet (mSet (mSet (mSet kfm.R 0 0 axisXYZ) 1 1 axisXYZ) 2 2 axisXYZ) 3 3 gyroXYZ) 4 4 gyroXYZ) 5 5 gyroXYZ
  { kfm with R := R }

/-- Embedded from sensor_fusion.c (tune_measurement_noise): overwrite the
R diagonal with (r_axis times alpha1) on the axis block and (r_gyro times
alpha2) on the velocity block. -/
def tune_measurement_noise (kfm : Kalman16Obs) : Kalman16Obs :=
  let a := fix16_mul initial_r_axis alpha1
  let g := fix16_mul initial_r_gyro alpha2
  let R := mSet (mSet (mSet (mSet (mSet (mSet kfm.R 0 0 a) 1 1 a) 2 2 a) 3 3 g) 4 4 g) 5 5 g
  { kfm with R := R }

/-- Embedded from sensor_fusion.c (initialize_observation): a 6-observation
instance with H the 6-by-6 identity on all state entries and the R diagonal
seeded by update_measurement_noise with the raw (unscaled) r values.
kalman_observation_initialize of the external library zeroes H, R and z. -/
def initialize_observation : Kalman16Obs :=
  let kfm : Kalman16Obs := ⟨mZero 6 6, mZero 6 6, List.replicate 6 0⟩
  let H := mSet (mSet (mSet (mSet (mSet (mSet kfm.H 0 0 65536) 1 1 65536) 2 2 65536) 3 3 65536) 4 4 65536) 5 5 65536
  update_measurement_noise { kfm with H := H } initial_r_axis initial_r_gyro

/-- Embedded from sensor_fusion.c (initialize_observation_gyro): a
3-observation instance whose H picks the three velocity entries of the
state and whose R diagonal is initial_r_gyro. -/
def initialize_observation_gyro : Kalman16Obs :=
  let kfm : Kalman16Obs := ⟨mZero 3 6, mZero 3 3, List.replicate 3 0⟩
  let H := mSet (mSet (mSet kfm.H 0 3 65536) 1 4 65536) 2 5 65536
  let R := mSet (mSet (mSet kfm.R 0 0 initial_r_gyro) 1 1 initial_r_gyro) 2 2 initial_r_gyro
  { kfm with H := H, R := R }

/-- Embedded from sensor_fusion.c (fusion_initialize): the process state
right after initialization, with empty sample buffers and cleared flags. -/
def fusion_initialize : FusionState :=
  let sys := initialize_system
  { kf_attitude := sys.1
    kf_orientation := sys.2
    kfm_accel := initialize_observation
    kfm_magneto := initialize_observation
    kfm_gyro := initialize_observation_gyro
    m_accelerometer := ⟨0, 0, 0⟩
    m_gyroscope := ⟨0, 0, 0⟩
    m_magnetometer := ⟨0, 0, 0⟩
    m_have_accelerometer := false
    m_have_gyroscope := false
    m_have_magnetometer := false
    m_attitude_bootstrapped := false
    m_orientation_bootstrapped := false }

/-- Embedded from sensor_fusion.c (fusion_sanitize_state): renormalise the
axis row of a filter state by its Q16.16 norm. -/
def fusion_sanitize_state (kf : Kalman16UC) : Kalman16UC :=
  let c1 := kf.x.c1
  let c2 := kf.x.c2
  let c3 := kf.x.c3
  let n := norm3 c1 c2 c3
  { kf with x := { kf.x with c1 := fix16_div c1 n, c2 := fix16_div c2 n, c3 := fix16_div c3 n } }

/-- Embedded from sensor_fusion.c (fusion_fastpredict_X): integrate the
axis row by deltaT times the cross product of the axis with the angular
velocity and keep the velocity entries constant. -/
def fusion_fastpredict_X (kf : Kalman16UC) (deltaT : fix16_t) : Kalman16UC :=
  let c1 := kf.x.c1
  let c2 := kf.x.c2
  let c3 := kf.x.c3
  let gx := kf.x.w1
  let gy := kf.x.w2
  let gz := kf.x.w3
  let d_c1 := fix16_sub (fix16_mul c3 gy) (fix16_mul c2 gz)
  let d_c2 := fix16_sub (fix16_mul c1 gz) (fix16_mul c3 gx)
  let d_c3 := fix16_sub (fix16_mul c2 gx) (fix16_mul c1 gy)
  { kf with x := ⟨fix16_add c1 (fix16_mul d_c1 deltaT),
                  fix16_add c2 (fix16_mul d_c2 deltaT),
                  fix16_add c3 (fix16_mul d_c3 deltaT),
                  gx, gy, gz⟩ }

/-- Embedded from sensor_fusion.c (fusion_predict): refresh both A
matrices from the current states, fast-predict both state vectors,
advance both covariances, then re-orthogonalise both axis rows. -/
def fusion_predict (deltaT : fix16_t) (s : FusionState) : FusionState :=
  let att := update_state_matrix_from_state s.kf_attitude deltaT
  let ori := update_state_matrix_from_state s.kf_orientation deltaT
  let att := fusion_fastpredict_X att deltaT
  let ori := fusion_fastpredict_X ori deltaT
  let att := { att with P := kalman_predict_P_uc att }
  let ori := { ori with P := kalman_predict_P_uc ori }
  let att := fusion_sanitize_state att
  let ori := fusion_sanitize_state ori
  { s with kf_attitude := att, kf_orientation := ori }

/-- Embedded from sensor_fusion.c (fusion_set_accelerometer): latch the
sample and raise the have flag. -/
def fusion_set_accelerometer (v : V3) (s : FusionState) : FusionState :=
  { s with m_accelerometer := v, m_have_accelerometer := true }

/-- Embedded from sensor_fusion.c (fusion_set_gyroscope). -/
def fusion_set_gyroscope (v : V3) (s : FusionState) : FusionState :=
  { s with m_gyroscope := v, m_have_gyroscope := true }

/-- Embedded from sensor_fusion.c (fusion_set_magnetometer). -/
def fusion_set_magnetometer (v : V3) (s : FusionState) : FusionState :=
  { s with m_magnetometer := v, m_have_magnetometer := true }

/-- Embedded from sensor_fusion.c (acceleration_detected): an external
acceleration disturbance is declared when the absolute difference between
the Q16.16 norm of the latched accelerometer sample and one is not below
attitude_threshold. -/
def acceleration_detected (s : FusionState) : Bool :=
  let alpha := fix16_abs (fix16_sub (norm3 s.m_accelerometer.x s.m_accelerometer.y s.m_accelerometer.z) 65536)
  if alpha < attitude_threshold then false else true

/-- Identifies the filter a Kalman correction was applied to. -/
inductive FilterId where
  | attitude
  | orientation
  deriving DecidableEq

/-- Identifies the observation instance a Kalman correction used. -/
inductive ObsId where
  | accel
  | magneto
  | gyro
  deriving DecidableEq

/-- An observation event of one update call: which filter was corrected,
against which observation instance, with which measurement column. -/
structure CorrectionEvent where
  filter : FilterId
  obs : ObsId
  z : List fix16_t
  deriving DecidableEq

/-- Corrections applied to the attitude filter, in order. -/
def attitudeObs (evs : List CorrectionEvent) : List ObsId :=
  (evs.filter (fun e => decide (e.filter = FilterId.attitude))).map (fun e => e.obs)

/-- Corrections applied to the orientation filter, in order. -/
def orientationObs (evs : List CorrectionEvent) : List ObsId :=
  (evs.filter (fun e => decide (e.filter = FilterId.orientation))).map (fun e => e.obs)

/-- Correction events restricted to the attitude filter. -/
def attitudeEvents (evs : List CorrectionEvent) : List CorrectionEvent :=
  evs.filter (fun e => decide (e.filter = FilterId.attitude))

/-- Embedded from sensor_fusion.c (fusion_update_attitude_gyro): write the
latched gyroscope into the shared gyro observation, correct the attitude
filter against it and re-orthogonalise.  deltaT is accepted and ignored,
as in the source. -/
def fusion_update_attitude_gyro (deltaT : fix16_t) (s : FusionState) :
    FusionState × List CorrectionEvent :=
  let z := [s.m_gyroscope.x, s.m_gyroscope.y, s.m_gyroscope.z]
  let kfm := { s.kfm_gyro with z := z }
  let xp := kalman_correct_uc s.kf_attitude kfm
  let kf := fusion_sanitize_state { s.kf_attitude with x := xp.1, P := xp.2 }
  ({ s with kfm_gyro := kfm, kf_attitude := kf },
   [⟨FilterId.attitude, ObsId.gyro, z⟩])

/-- Embedded from sensor_fusion.c (fusion_update_attitude): on a detected
acceleration disturbance fall back to the gyro-only correction; otherwise
assemble the normalised accelerometer and the raw gyroscope into z,
retune the accel observation noise, correct and re-orthogonalise. -/
def fusion_update_attitude (deltaT : fix16_t) (s : FusionState) :
    FusionState × List CorrectionEvent :=
  if acceleration_detected s then fusion_update_attitude_gyro deltaT s
  else
    let n := v3d_norm s.m_accelerometer
    let z := [fix16_div s.m_accelerometer.x n, fix16_div s.m_accelerometer.y n,
              fix16_div s.m_accelerometer.z n,
              s.m_gyroscope.x, s.m_gyroscope.y, s.m_gyroscope.z]
    let kfm := tune_measurement_noise { s.kfm_accel with z := z }
    let xp := kalman_correct_uc s.kf_attitude kfm
    let kf := fusion_sanitize_state { s.kf_attitude with x := xp.1, P := xp.2 }
    ({ s with kfm_accel := kfm, kf_attitude := kf },
     [⟨FilterId.attitude, ObsId.accel, z⟩])

/-- Embedded from sensor_fusion.c (magnetometer_project): TRIAD-style
projection, the normalised cross product of the latched magnetometer with
the current attitude axis row. -/
def magnetometer_project (s : FusionState) : V3 :=
  let a : V3 := ⟨s.kf_attitude.x.c1, s.kf_attitude.x.c2, s.kf_attitude.x.c3⟩
  v3normalize (v3cross s.m_magnetometer a)

/-- Embedded from sensor_fusion.c (fusion_update_orientation_gyro): the
gyro-only correction on the orientation filter. -/
def fusion_update_orientation_gyro (deltaT : fix16_t) (s : FusionState) :
    FusionState × List CorrectionEvent :=
  let z := [s.m_gyroscope.x, s.m_gyroscope.y, s.m_gyroscope.z]
  let kfm := { s.kfm_gyro with z := z }
  let xp := kalman_correct_uc s.kf_orientation kfm
  let kf := fusion_sanitize_state { s.kf_orientation with x := xp.1, P := xp.2 }
  ({ s with kfm_gyro := kfm, kf_orientation := kf },
   [⟨FilterId.orientation, ObsId.gyro, z⟩])

/-- Embedded from sensor_fusion.c (fusion_update_orientation): project the
magnetometer, retune the magneto observation noise and overwrite its first
three R diagonal entries with initial_r_projection scaled by alpha1,
assemble z from the projection and the raw gyroscope, correct the
orientation filter and re-orthogonalise.  The singularity branch of the
source is compiled out. -/
def fusion_update_orientation (deltaT : fix16_t) (s : FusionState) :
    FusionState × List CorrectionEvent :=
  let p := magnetometer_project s
  let kfm1 := tune_measurement_noise s.kfm_magneto
  let rp := fix16_mul initial_r_projection alpha1
  let R := mSet (mSet (mSet kfm1.R 0 0 rp) 1 1 rp) 2 2 rp
  let z := [p.x, p.y, p.z, s.m_gyroscope.x, s.m_gyroscope.y, s.m_gyroscope.z]
  let kfm := { kfm1 with R := R, z := z }
  let xp := kalman_correct_uc s.kf_orientation kfm
  let kf := fusion_sanitize_state { s.kf_orientation with x := xp.1, P := xp.2 }
  ({ s with kfm_magneto := kfm, kf_orientation := kf },
   [⟨FilterId.orientation, ObsId.magneto, z⟩])

/-- Embedded from sensor_fusion.c (fusion_update, attitude bootstrap
block): write the accelerometer sample normalised by its Q16.16 norm
directly into the attitude axis row and raise the bootstrap flag. -/
def attitude_bootstrap (s : FusionState) : FusionState :=
  let n := v3d_norm s.m_accelerometer
  { s with
    kf_attitude := { s.kf_attitude with
      x := { s.kf_attitude.x with
        c1 := fix16_div s.m_accelerometer.x n,
        c2 := fix16_div s.m_accelerometer.y n,
        c3 := fix16_div s.m_accelerometer.z n } }
    m_attitude_bootstrapped := true }

/-- Embedded from sensor_fusion.c (fusion_update, orientation bootstrap
block): write the projected magnetometer directly into the orientation
axis row and raise the bootstrap flag. -/
def orientation_bootstrap (s : FusionState) : FusionState :=
  let p := magnetometer_project s
  { s with
    kf_orientation := { s.kf_orientation with
      x := { s.kf_orientation.x with c1 := p.x, c2 := p.y, c3 := p.z } }
    m_orientation_bootstrapped := true }

/-- Embedded from sensor_fusion.c (fusion_update, the roll and pitch
section): when an accelerometer sample is latched, bootstrap the attitude
filter if it has not been bootstrapped yet and then run its accelerometer
update; otherwise run its gyro-only correction. -/
def fusion_update_attitude_phase (deltaT : fix16_t) (s : FusionState) :
    FusionState × List CorrectionEvent :=
  if s.m_have_accelerometer then
    fusion_update_attitude deltaT
      (if s.m_attitude_bootstrapped then s else attitude_bootstrap s)
  else fusion_update_attitude_gyro deltaT s

/-- Embedded from sensor_fusion.c (fusion_update, the yaw section): when a
magnetometer sample is latched, bootstrap the orientation filter if it has
not been bootstrapped yet and the attitude filter already has, and then
run the magnetometer update; otherwise run the gyro-only correction on the
orientation filter. -/
def fusion_update_orientation_phase (deltaT : fix16_t) (s : FusionState) :
    FusionState × List CorrectionEvent :=
  if s.m_have_magnetometer then
    fusion_update_orientation deltaT
      (if s.m_orientation_bootstrapped = false ∧ s.m_attitude_bootstrapped = true then
        orientation_bootstrap s
      else s)
  else fusion_update_orientation_gyro deltaT s

/-- Embedded from sensor_fusion.c (fusion_update): the attitude phase, the
orientation phase on its result, then clearing of the accelerometer and
magnetometer have flags.  The returned list records the corrections that
were applied.  The test switches of the source are compiled out
(TEST_ENABLED is 0). -/
def fusion_update (deltaT : fix16_t) (s : FusionState) :
    FusionState × List CorrectionEvent :=
  let r1 := fusion_update_attitude_phase deltaT s
  let r2 := fusion_update_orientation_phase deltaT r1.1
  ({ r2.1 with m_have_accelerometer := false, m_have_magnetometer := false },
   r1.2 ++ r2.2)

/-- Quaternion in Q16.16 with real part first (qf16: a = w, b = x, c = y,
d = z). -/
structure Quat where
  a : fix16_t
  b : fix16_t
  c : fix16_t
  d : fix16_t
  deriving DecidableEq

/-- Modelled from the spec: qf16_normalize of the external math library
divides every component by the Q16.16 norm of the quaternion. -/
def qf16_normalize (q : Quat) : Quat :=
  let n := fix16_sqrt (fix16_add (fix16_sq q.a) (fix16_add (fix16_sq q.b) (fix16_add (fix16_sq q.c) (fix16_sq q.d))))
  ⟨fix16_div q.a n, fix16_div q.b n, fix16_div q.c n, fix16_div q.d n⟩

/-- Direction cosine matrix assembled inside fetch_quaternion_opt2, rows
m0, m1, m2 in row-major order. -/
structure DCM where
  m00 : fix16_t
  m01 : fix16_t
  m02 : fix16_t
  m10 : fix16_t
  m11 : fix16_t
  m12 : fix16_t
  m20 : fix16_t
  m21 : fix16_t
  m22 : fix16_t
  deriving DecidableEq

/-- Trace of a DCM in Q16.16. -/
def DCM.trace (m : DCM) : fix16_t := fix16_add m.m00 (fix16_add m.m11 m.m22)

/-- Embedded from sensor_fusion.c (the Angel branch code of
fetch_quaternion_opt2): trace-based branch conversion of a DCM into a
quaternion, before the final normalisation. -/
def angelQuat (m : DCM) : Quat :=
  let trace := m.trace
  if 0 < trace then
    let s := fix16_div 32768 (fix16_sqrt (fix16_add 65536 trace))
    ⟨fix16_div 16384 s,
     fix16_mul (fix16_sub m.m21 m.m12) s,
     fix16_mul (fix16_sub m.m02 m.m20) s,
     fix16_mul (fix16_sub m.m10 m.m01) s⟩
  else if m.m11 < m.m00 ∧ m.m22 < m.m00 then
    let s := fix16_mul 131072 (fix16_sqrt (fix16_add 65536 (fix16_sub m.m00 (fix16_add m.m11 m.m22))))
    ⟨fix16_div (fix16_sub m.m21 m.m12) s,
     fix16_mul 16384 s,
     fix16_div (fix16_add m.m01 m.m10) s,
     fix16_div (fix16_add m.m02 m.m20) s⟩
  else if m.m22 < m.m11 then
    let s := fix16_mul 131072 (fix16_sqrt (fix16_add 65536 (fix16_sub m.m11 (fix16_add m.m00 m.m22))))
    ⟨fix16_div (fix16_sub m.m02 m.m20) s,
     fix16_div (fix16_add m.m01 m.m10) s,
     fix16_mul 16384 s,
     fix16_div (fix16_add m.m12 m.m21) s⟩
  else
    let s := fix16_mul 131072 (fix16_sqrt (fix16_add 65536 (fix16_sub m.m22 (fix16_add m.m00 m.m11))))
    ⟨fix16_div (fix16_sub m.m10 m.m01) s,
     fix16_div (fix16_add m.m02 m.m20) s,
     fix16_div (fix16_add m.m12 m.m21) s,
     fix16_mul 16384 s⟩

/-- Embedded from sensor_fusion.c (fetch_quaternion_opt2): the DCM whose
middle row is the orientation axis row, whose bottom row is the negated
attitude axis row, and whose top row is the normalised cross product of
the middle row with the bottom row, converted by the Angel branch code and
normalised. -/
def fetch_quaternion_opt2 (x2 x3 : StateVec) : Quat :=
  let m10 := x2.c1
  let m11 := x2.c2
  let m12 := x2.c3
  let m20 := -x3.c1
  let m21 := -x3.c2
  let m22 := -x3.c3
  let m00 := fix16_sub (fix16_mul m11 m22) (fix16_mul m12 m21)
  let m01 := fix16_sub (fix16_mul m12 m20) (fix16_mul m10 m22)
  let m02 := fix16_sub (fix16_mul m10 m21) (fix16_mul m11 m20)
  let n := norm3 m00 m01 m02
  let m : DCM := ⟨fix16_div m00 n, fix16_div m01 n, fix16_div m02 n,
                  m10, m11, m12, m20, m21, m22⟩
  qf16_normalize (angelQuat m)

/-- Embedded from sensor_fusion.c (fusion_fetch_quaternion): exports the
opt2 conversion on the two current state vectors.  The source writes only
through the caller's out-pointer, so the process state is returned
unchanged. -/
def fusion_fetch_quaternion (s : FusionState) : Quat × FusionState :=
  (fetch_quaternion_opt2 s.kf_orientation.x s.kf_attitude.x, s)

/-- Embedded from sensor_fusion.c (calculate_roll_pitch and calculate_yaw
composed by fusion_fetch_angles), with the trigonometric routines of the
external math library passed in as parameters: pitch = -asin(c31),
roll = -atan2(c32, -c33), yaw = atan2(c21, -(c22.c33 - c23.c32)).  The
source writes only through the callers' out-pointers, so the process state
is returned unchanged. -/
def fusion_fetch_angles (f_asin : fix16_t → fix16_t) (f_atan2 : fix16_t → fix16_t → fix16_t)
    (s : FusionState) : (fix16_t × fix16_t × fix16_t) × FusionState :=
  let c31 := s.kf_attitude.x.c1
  let c32 := s.kf_attitude.x.c2
  let c33 := s.kf_attitude.x.c3
  let c21 := s.kf_orientation.x.c1
  let c22 := s.kf_orientation.x.c2
  let c23 := s.kf_orientation.x.c3
  let pitch := -(f_asin c31)
  let roll := -(f_atan2 c32 (-c33))
  let c11 := fix16_sub (fix16_mul c22 c33) (fix16_mul c23 c32)
  let yaw := f_atan2 c21 (-c11)
  ((roll, pitch, yaw), s)

/-- One call of the public fusion API, as issued by the interrupt-driven
main loop. -/
inductive Op where
  | setAccel (v : V3)
  | setGyro (v : V3)
  | setMag (v : V3)
  | predict (dt : fix16_t)
  | update (dt : fix16_t)
  | fetchAngles
  | fetchQuat
  deriving DecidableEq

/-- State transformer of one API call.  The two fetch calls only read the
process state (they write through caller out-pointers), so their state
transformer is the identity. -/
def step (op : Op) (s : FusionState) : FusionState :=
  match op with
  | Op.setAccel v => fusion_set_accelerometer v s
  | Op.setGyro v => fusion_set_gyroscope v s
  | Op.setMag v => fusion_set_magnetometer v s
  | Op.predict dt => fusion_predict dt s
  | Op.update dt => (fusion_update dt s).1
  | Op.fetchAngles => (fusion_fetch_angles (fun t => t) (fun t _ => t) s).2
  | Op.fetchQuat => (fusion_fetch_quaternion s).2

/-- The process state after a sequence of API calls issued from the
initialized state. -/
def run (ops : List Op) : FusionState :=
  ops.foldl (fun s op => step op s) fusion_initialize

/-- DCM of the two axis rows as the code builds it: middle row the
orientation axis b, bottom row the negated attitude axis, top row the
normalised cross product of the middle row with the bottom row. -/
def dcm_of_states (x2 x3 : StateVec) : DCM :=
  let b : V3 := ⟨x2.c1, x2.c2, x2.c3⟩
  let na : V3 := ⟨-x3.c1, -x3.c2, -x3.c3⟩
  let t := v3normalize (v3cross b na)
  ⟨t.x, t.y, t.z, b.x, b.y, b.z, na.x, na.y, na.z⟩

/-- Stated from the specification's words, for comparison with the code:
the DCM whose top row is the normalised cross product of the negated
attitude axis with the orientation axis b, middle row b, bottom row the
negated attitude axis. -/
def dcm_spec_claim (x2 x3 : StateVec) : DCM :=
  let b : V3 := ⟨x2.c1, x2.c2, x2.c3⟩
  let na : V3 := ⟨-x3.c1, -x3.c2, -x3.c3⟩
  let t := v3normalize (v3cross na b)
  ⟨t.x, t.y, t.z, b.x, b.y, b.z, na.x, na.y, na.z⟩

/-- Stated from the specification's words, for comparison with the code:
the quaternion obtained by the trace-based branch conversion of the DCM
of dcm_spec_claim, normalised. -/
def fetch_quaternion_spec (x2 x3 : StateVec) : Quat :=
  qf16_normalize (angelQuat (dcm_spec_claim x2 x3))

/-- Process state with given orientation and attitude state vectors, used
to exercise the quaternion extraction at concrete axis rows. -/
def quatTestState (x2 x3 : StateVec) : FusionState :=
  { fusion_initialize with
    kf_orientation := { fusion_initialize.kf_orientation with x := x2 }
    kf_attitude := { fusion_initialize.kf_attitude with x := x3 } }

/-- Q16.16 multiplication commutes (the rounded product is symmetric). -/
theorem fix16_mul_comm (a b : fix16_t) : fix16_mul a b = fix16_mul b a := by
  unfold fix16_mul
  rw [Int.mul_comm]

/-- Claim C4: for every filter state with axis row (c1, c2, c3) and
angular-velocity entries (w1, w2, w3), fusion_fastpredict_X with time step
dt sets the state to c1 + dt.(c3.w2 - c2.w3), c2 + dt.(c1.w3 - c3.w1),
c3 + dt.(c2.w1 - c1.w2) in Q16.16 arithmetic (before re-orthogonalisation,
which lives in fusion_predict) and leaves the three angular-velocity
entries unchanged. -/
theorem c4_fastpredict (kf : Kalman16UC) (dt : fix16_t) :
    (fusion_fastpredict_X kf dt).x =
      ⟨fix16_add kf.x.c1 (fix16_mul dt (fix16_sub (fix16_mul kf.x.c3 kf.x.w2) (fix16_mul kf.x.c2 kf.x.w3))),
       fix16_add kf.x.c2 (fix16_mul dt (fix16_sub (fix16_mul kf.x.c1 kf.x.w3) (fix16_mul kf.x.c3 kf.x.w1))),
       fix16_add kf.x.c3 (fix16_mul dt (fix16_sub (fix16_mul kf.x.c2 kf.x.w1) (fix16_mul kf.x.c1 kf.x.w2))),
       kf.x.w1, kf.x.w2, kf.x.w3⟩ := by
  simp only [fusion_fastpredict_X]
  rw [fix16_mul_comm dt, fix16_mul_comm dt, fix16_mul_comm dt]

/-- Claim C9: the deltaT argument of fusion_update has no effect: from any
starting state, fusion_update with dt1 and with dt2 produce identical
resulting states (and identical correction traces). -/
theorem c9_update_dt_independent (s : FusionState) (dt1 dt2 : fix16_t) :
    fusion_update dt1 s = fusion_update dt2 s := rfl

/-- Claim C5 counterexample: right after fusion_initialize and before any
correction, the R diagonal of kfm_accel holds the raw, unscaled noise
values r_axis = 3277 (0.05) and r_gyro = 1311 (0.02), not the alpha-scaled
16384 (0.25) and 1049 (0.016) the claim states, and the first R entry of
kfm_magneto is 3277, not 6554 (0.10). -/
theorem c5_counterexample :
    mGet fusion_initialize.kfm_accel.R 0 0 = 3277 ∧
    ¬ mGet fusion_initialize.kfm_accel.R 0 0 = 16384 ∧
    mGet fusion_initialize.kfm_accel.R 3 3 = 1311 ∧
    ¬ mGet fusion_initialize.kfm_accel.R 3 3 = 1049 ∧
    mGet fusion_initialize.kfm_magneto.R 0 0 = 3277 ∧
    ¬ mGet fusion_initialize.kfm_magneto.R 0 0 = 6554 := by
  decide

/-- Claim C5 amended: after fusion_initialize and before any correction,
the R diagonals of kfm_accel and kfm_magneto are (r_axis, r_axis, r_axis,
r_gyro, r_gyro, r_gyro) = (3277 x3, 1311 x3) and the kfm_gyro diagonal is
1311 x3; the alpha-scaled values r_axis.alpha1 = 16385 (about 0.25) and
r_gyro.alpha2 = 1049 (0.016) are installed by tune_measurement_noise
immediately before each accelerometer or magnetometer correction, and the
first three diagonal entries of kfm_magneto are overwritten with
r_projection.alpha1 = 6555 (about 0.10) inside the magnetometer update of
fusion_update. -/
theorem c5_amended :
    (∀ i, i < 3 → mGet fusion_initialize.kfm_accel.R i i = 3277 ∧
                  mGet fusion_initialize.kfm_accel.R (i + 3) (i + 3) = 1311 ∧
                  mGet fusion_initialize.kfm_magneto.R i i = 3277 ∧
                  mGet fusion_initialize.kfm_magneto.R (i + 3) (i + 3) = 1311 ∧
                  mGet fusion_initialize.kfm_gyro.R i i = 1311) ∧
    (∀ i, i < 3 →
      mGet (tune_measurement_noise fusion_initialize.kfm_accel).R i i = 16385 ∧
      mGet (tune_measurement_noise fusion_initialize.kfm_accel).R (i + 3) (i + 3) = 1049) ∧
    fix16_mul initial_r_axis alpha1 = 16385 ∧
    fix16_mul initial_r_gyro alpha2 = 1049 ∧
    fix16_mul initial_r_projection alpha1 = 6555 ∧
    (∀ i, i < 3 →
      mGet ((fusion_update 65536 (fusion_set_magnetometer ⟨65536, 0, 0⟩ fusion_initialize)).1.kfm_magneto.R) i i = 6555 ∧
      mGet ((fusion_update 65536 (fusion_set_magnetometer ⟨65536, 0, 0⟩ fusion_initialize)).1.kfm_magneto.R) (i + 3) (i + 3) = 1049) := by
  decide

/-- Claim C3 (code evaluation at the failing input): fusion_initialize
seeds both axis rows with the raw integer 1 (the Q16.16 value 2 to the
power -16, not 1.0), so the very first fusion_predict call with
dt = 1.0 computes a Q16.16 axis norm of 0 inside fusion_sanitize_state
(fix16_sq of the raw 1 underflows to 0) and the degenerate division wipes
both axis rows to (0, 0, 0); the claimed bound on the distance of the axis
norm from 1.0 (raw 65536) by 2 to the power -10 (raw 64) fails by the
maximum possible margin. -/
theorem c3_code_eval :
    fusion_initialize.kf_attitude.x.c3 = 1 ∧
    fusion_initialize.kf_orientation.x.c2 = 1 ∧
    (fusion_predict 65536 fusion_initialize).kf_attitude.x =
      ⟨0, 0, 0, 0, 0, 0⟩ ∧
    (fusion_predict 65536 fusion_initialize).kf_orientation.x =
      ⟨0, 0, 0, 0, 0, 0⟩ ∧
    ¬ fix16_abs (fix16_sub
        (norm3 (fusion_predict 65536 fusion_initialize).kf_attitude.x.c1
               (fusion_predict 65536 fusion_initialize).kf_attitude.x.c2
               (fusion_predict 65536 fusion_initialize).kf_attitude.x.c3) 65536) < 64 := by
  decide

/-- Claim C6 counterexample: with orientation axis row b = (0, 1, 0) and
attitude axis row a = (0, 0, 1) (raw Q16.16), the code builds the DCM top
row as normalise(b x (-a)) = (-1, 0, 0), lands in the largest-diagonal
branch and returns the quaternion (0, 0, 1, 0), whereas the claimed
construction with top row normalise((-a) x b) = (1, 0, 0) takes the
trace branch and returns (1, 0, 0, 0) (raw 65537 after normalisation):
the two sign conventions give different quaternions. -/
theorem c6_counterexample :
    (fusion_fetch_quaternion (quatTestState ⟨0, 65536, 0, 0, 0, 0⟩ ⟨0, 0, 65536, 0, 0, 0⟩)).1 =
      ⟨0, 0, 65536, 0⟩ ∧
    fetch_quaternion_spec ⟨0, 65536, 0, 0, 0, 0⟩ ⟨0, 0, 65536, 0, 0, 0⟩ =
      ⟨65537, 0, 0, 0⟩ ∧
    ¬ (fusion_fetch_quaternion (quatTestState ⟨0, 65536, 0, 0, 0, 0⟩ ⟨0, 0, 65536, 0, 0, 0⟩)).1 =
      fetch_quaternion_spec ⟨0, 65536, 0, 0, 0, 0⟩ ⟨0, 0, 65536, 0, 0, 0⟩ := by
  decide

/-- Claim C6 amended: fusion_fetch_quaternion computes the quaternion by
the trace-based branch conversion applied to the DCM m whose middle row is
the orientation axis row b, whose bottom row is the negated attitude axis
row (-a), and whose top row is normalise(b x (-a)) (equal to
normalise(a x b); the claim's normalise((-a) x b) has the opposite sign);
in particular when tr = m00 + m11 + m22 is positive it returns, before
the final normalisation, w = 0.25/s, x = (m21 - m12).s, y = (m02 - m20).s,
z = (m10 - m01).s with s = 0.5/sqrt(1 + tr). -/
theorem c6_amended (s : FusionState) :
    (fusion_fetch_quaternion s).1 =
      qf16_normalize (angelQuat (dcm_of_states s.kf_orientation.x s.kf_attitude.x)) ∧
    (0 < (dcm_of_states s.kf_orientation.x s.kf_attitude.x).trace →
      angelQuat (dcm_of_states s.kf_orientation.x s.kf_attitude.x) =
        ⟨fix16_div 16384
           (fix16_div 32768 (fix16_sqrt (fix16_add 65536 (dcm_of_states s.kf_orientation.x s.kf_attitude.x).trace))),
         fix16_mul (fix16_sub (dcm_of_states s.kf_orientation.x s.kf_attitude.x).m21
                              (dcm_of_states s.kf_orientation.x s.kf_attitude.x).m12)
           (fix16_div 32768 (fix16_sqrt (fix16_add 65536 (dcm_of_states s.kf_orientation.x s.kf_attitude.x).trace))),
         fix16_mul (fix16_sub (dcm_of_states s.kf_orientation.x s.kf_attitude.x).m02
                              (dcm_of_states s.kf_orientation.x s.kf_attitude.x).m20)
           (fix16_div 32768 (fix16_sqrt (fix16_add 65536 (dcm_of_states s.kf_orientation.x s.kf_attitude.x).trace))),
         fix16_mul (fix16_sub (dcm_of_states s.kf_orientation.x s.kf_attitude.x).m10
                              (dcm_of_states s.kf_orientation.x s.kf_attitude.x).m01)
           (fix16_div 32768 (fix16_sqrt (fix16_add 65536 (dcm_of_states s.kf_orientation.x s.kf_attitude.x).trace)))⟩) := by
  constructor
  · rfl
  · intro h
    simp only [angelQuat, DCM.trace] at h ⊢
    rw [if_pos h]

/-- Claim C6 amended, witness: at orientation axis row (0, 1, 0) and
attitude axis row (0, 0, -1) the amended DCM is the identity, its trace
3.0 is positive, and the trace-branch formulas give the quaternion
(1, 0, 0, 0). -/
theorem c6_amended_witness :
    0 < (dcm_of_states (quatTestState ⟨0, 65536, 0, 0, 0, 0⟩ ⟨0, 0, -65536, 0, 0, 0⟩).kf_orientation.x
                       (quatTestState ⟨0, 65536, 0, 0, 0, 0⟩ ⟨0, 0, -65536, 0, 0, 0⟩).kf_attitude.x).trace ∧
    angelQuat (dcm_of_states (quatTestState ⟨0, 65536, 0, 0, 0, 0⟩ ⟨0, 0, -65536, 0, 0, 0⟩).kf_orientation.x
                             (quatTestState ⟨0, 65536, 0, 0, 0, 0⟩ ⟨0, 0, -65536, 0, 0, 0⟩).kf_attitude.x) =
      ⟨65536, 0, 0, 0⟩ := by
  refine ⟨by decide, ?_⟩
  rw [(c6_amended (quatTestState ⟨0, 65536, 0, 0, 0, 0⟩ ⟨0, 0, -65536, 0, 0, 0⟩)).2 (by decide)]
  decide

/-- The attitude bootstrap leaves the sample buffers untouched, so the
disturbance check reads the same accelerometer before and after it. -/
theorem acceleration_detected_bootstrap (s : FusionState) :
    acceleration_detected (attitude_bootstrap s) = acceleration_detected s := rfl

/-- Projection lemma: the attitude branches preserve the attitude
bootstrap flag. -/
theorem fusion_update_attitude_attflag (dt : fix16_t) (s : FusionState) :
    (fusion_update_attitude dt s).1.m_attitude_bootstrapped = s.m_attitude_bootstrapped := by
  unfold fusion_update_attitude fusion_update_attitude_gyro
  split <;> rfl

/-- Projection lemma: the attitude branches preserve the orientation
bootstrap flag. -/
theorem fusion_update_attitude_oriflag (dt : fix16_t) (s : FusionState) :
    (fusion_update_attitude dt s).1.m_orientation_bootstrapped = s.m_orientation_bootstrapped := by
  unfold fusion_update_attitude fusion_update_attitude_gyro
  split <;> rfl

/-- Projection lemma: the attitude branches preserve the magnetometer
have flag. -/
theorem fusion_update_attitude_havemag (dt : fix16_t) (s : FusionState) :
    (fusion_update_attitude dt s).1.m_have_magnetometer = s.m_have_magnetometer := by
  unfold fusion_update_attitude fusion_update_attitude_gyro
  split <;> rfl

/-- Flag algebra of the attitude phase: the attitude bootstrap flag after
the phase is its old value or-ed with the have-accelerometer flag. -/
theorem attitude_phase_attflag (dt : fix16_t) (s : FusionState) :
    (fusion_update_attitude_phase dt s).1.m_attitude_bootstrapped =
      (s.m_attitude_bootstrapped || s.m_have_accelerometer) := by
  unfold fusion_update_attitude_phase
  cases ha : s.m_have_accelerometer with
  | false => simp [fusion_update_attitude_gyro]
  | true =>
    cases hb : s.m_attitude_bootstrapped with
    | false => simp [fusion_update_attitude_attflag, attitude_bootstrap]
    | true => simp [fusion_update_attitude_attflag, hb]

/-- The attitude phase preserves the orientation bootstrap flag. -/
theorem attitude_phase_oriflag (dt : fix16_t) (s : FusionState) :
    (fusion_update_attitude_phase dt s).1.m_orientation_bootstrapped =
      s.m_orientation_bootstrapped := by
  unfold fusion_update_attitude_phase
  cases ha : s.m_have_accelerometer with
  | false => rfl
  | true =>
    cases hb : s.m_attitude_bootstrapped with
    | false => simp [fusion_update_attitude_oriflag, attitude_bootstrap]
    | true => simp [fusion_update_attitude_oriflag]

/-- The attitude phase preserves the magnetometer have flag. -/
theorem attitude_phase_havemag (dt : fix16_t) (s : FusionState) :
    (fusion_update_attitude_phase dt s).1.m_have_magnetometer =
      s.m_have_magnetometer := by
  unfold fusion_update_attitude_phase
  cases ha : s.m_have_accelerometer with
  | false => rfl
  | true =>
    cases hb : s.m_attitude_bootstrapped with
    | false => simp [fusion_update_attitude_havemag, attitude_bootstrap]
    | true => simp [fusion_update_attitude_havemag]

/-- The orientation phase preserves the attitude bootstrap flag. -/
theorem orientation_phase_attflag (dt : fix16_t) (s : FusionState) :
    (fusion_update_orientation_phase dt s).1.m_attitude_bootstrapped =
      s.m_attitude_bootstrapped := by
  unfold fusion_update_orientation_phase fusion_update_orientation fusion_update_orientation_gyro
  split
  · split <;> rfl
  · rfl

/-- Flag algebra of the orientation phase: the orientation bootstrap flag
after the phase is its old value or-ed with the conjunction of the
magnetometer have flag and the attitude bootstrap flag. -/
theorem orientation_phase_oriflag (dt : fix16_t) (s : FusionState) :
    (fusion_update_orientation_phase dt s).1.m_orientation_bootstrapped =
      (s.m_orientation_bootstrapped || (s.m_have_magnetometer && s.m_attitude_bootstrapped)) := by
  unfold fusion_update_orientation_phase fusion_update_orientation fusion_update_orientation_gyro
  cases hm : s.m_have_magnetometer with
  | false => simp
  | true =>
    cases ho : s.m_orientation_bootstrapped with
    | true => simp [ho]
    | false =>
      cases hatt : s.m_attitude_bootstrapped with
      | true => simp [ho, hatt, orientation_bootstrap]
      | false => simp [ho, hatt]

/-- Flag algebra of one whole update call: the attitude bootstrap flag
after fusion_update is its old value or-ed with the have-accelerometer
flag. -/
theorem fusion_update_attflag (dt : fix16_t) (s : FusionState) :
    (fusion_update dt s).1.m_attitude_bootstrapped =
      (s.m_attitude_bootstrapped || s.m_have_accelerometer) := by
  show (fusion_update_orientation_phase dt (fusion_update_attitude_phase dt s).1).1.m_attitude_bootstrapped = _
  rw [orientation_phase_attflag, attitude_phase_attflag]

/-- Flag algebra of one whole update call: the orientation bootstrap flag
after fusion_update is its old value or-ed with the conjunction of the
magnetometer have flag and the attitude bootstrap flag as it stands after
the attitude phase. -/
theorem fusion_update_oriflag (dt : fix16_t) (s : FusionState) :
    (fusion_update dt s).1.m_orientation_bootstrapped =
      (s.m_orientation_bootstrapped ||
        (s.m_have_magnetometer && (s.m_attitude_bootstrapped || s.m_have_accelerometer))) := by
  show (fusion_update_orientation_phase dt (fusion_update_attitude_phase dt s).1).1.m_orientation_bootstrapped = _
  rw [orientation_phase_oriflag, attitude_phase_oriflag, attitude_phase_havemag,
      attitude_phase_attflag]

/-- Attitude-filter corrections distribute over event concatenation. -/
theorem attitudeEvents_append (l1 l2 : List CorrectionEvent) :
    attitudeEvents (l1 ++ l2) = attitudeEvents l1 ++ attitudeEvents l2 := by
  simp [attitudeEvents, List.filter_append]

/-- Orientation-filter corrections distribute over event concatenation. -/
theorem orientationObs_append (l1 l2 : List CorrectionEvent) :
    orientationObs (l1 ++ l2) = orientationObs l1 ++ orientationObs l2 := by
  simp [orientationObs, List.filter_append]

/-- The orientation phase emits no attitude-filter corrections. -/
theorem orientation_phase_attitudeEvents (dt : fix16_t) (s : FusionState) :
    attitudeEvents (fusion_update_orientation_phase dt s).2 = [] := by
  unfold fusion_update_orientation_phase fusion_update_orientation fusion_update_orientation_gyro
  split
  · rfl
  · rfl

/-- The attitude phase emits no orientation-filter corrections. -/
theorem attitude_phase_orientationObs (dt : fix16_t) (s : FusionState) :
    orientationObs (fusion_update_attitude_phase dt s).2 = [] := by
  unfold fusion_update_attitude_phase fusion_update_attitude fusion_update_attitude_gyro
  repeat' split
  all_goals rfl

/-- Every attitude-filter correction of the attitude phase survives the
attitude filter, so the attitude corrections of one whole update call are
exactly the events of its attitude phase. -/
theorem fusion_update_attitudeEvents (dt : fix16_t) (s : FusionState) :
    attitudeEvents (fusion_update dt s).2 = (fusion_update_attitude_phase dt s).2 := by
  show attitudeEvents ((fusion_update_attitude_phase dt s).2 ++
        (fusion_update_orientation_phase dt (fusion_update_attitude_phase dt s).1).2) = _
  rw [attitudeEvents_append, orientation_phase_attitudeEvents, List.append_nil]
  unfold fusion_update_attitude_phase fusion_update_attitude fusion_update_attitude_gyro
  repeat' split
  all_goals rfl

/-- The orientation corrections of one whole update call are exactly the
orientation corrections of its orientation phase. -/
theorem fusion_update_orientationObs (dt : fix16_t) (s : FusionState) :
    orientationObs (fusion_update dt s).2 =
      orientationObs (fusion_update_orientation_phase dt (fusion_update_attitude_phase dt s).1).2 := by
  show orientationObs ((fusion_update_attitude_phase dt s).2 ++
        (fusion_update_orientation_phase dt (fusion_update_attitude_phase dt s).1).2) = _
  rw [orientationObs_append, attitude_phase_orientationObs, List.nil_append]

/-- On a detected disturbance the attitude phase applies exactly one
correction: the gyro-only observation on the raw latched gyroscope. -/
theorem attitude_phase_disturbed (dt : fix16_t) (s : FusionState)
    (ha : s.m_have_accelerometer = true) (hd : acceleration_detected s = true) :
    (fusion_update_attitude_phase dt s).2 =
      [⟨FilterId.attitude, ObsId.gyro, [s.m_gyroscope.x, s.m_gyroscope.y, s.m_gyroscope.z]⟩] := by
  unfold fusion_update_attitude_phase
  simp only [ha, if_true]
  cases hb : s.m_attitude_bootstrapped with
  | true =>
    simp only [if_true]
    unfold fusion_update_attitude
    rw [if_pos hd]
    rfl
  | false =>
    simp only [Bool.false_eq_true, if_false]
    unfold fusion_update_attitude
    rw [acceleration_detected_bootstrap, if_pos hd]
    rfl

/-- Without a disturbance the attitude phase applies exactly one
correction: the full accelerometer observation whose measurement is the
accelerometer divided by its norm stacked on the raw latched gyroscope. -/
theorem attitude_phase_undisturbed (dt : fix16_t) (s : FusionState)
    (ha : s.m_have_accelerometer = true) (hd : acceleration_detected s = false) :
    (fusion_update_attitude_phase dt s).2 =
      [⟨FilterId.attitude, ObsId.accel,
        [fix16_div s.m_accelerometer.x (v3d_norm s.m_accelerometer),
         fix16_div s.m_accelerometer.y (v3d_norm s.m_accelerometer),
         fix16_div s.m_accelerometer.z (v3d_norm s.m_accelerometer),
         s.m_gyroscope.x, s.m_gyroscope.y, s.m_gyroscope.z]⟩] := by
  unfold fusion_update_attitude_phase
  simp only [ha, if_true]
  cases hb : s.m_attitude_bootstrapped with
  | true =>
    simp only [if_true]
    unfold fusion_update_attitude
    rw [if_neg (by rw [hd]; exact Bool.false_ne_true)]
  | false =>
    simp only [Bool.false_eq_true, if_false]
    unfold fusion_update_attitude
    rw [acceleration_detected_bootstrap, if_neg (by rw [hd]; exact Bool.false_ne_true)]
    rfl

/-- The disturbance decision restated arithmetically: detected exactly
when the distance of the accelerometer norm from 1.0 reaches the
threshold. -/
theorem acceleration_detected_iff (s : FusionState) :
    acceleration_detected s = true ↔
      attitude_threshold ≤
        fix16_abs (fix16_sub (norm3 s.m_accelerometer.x s.m_accelerometer.y s.m_accelerometer.z) 65536) := by
  unfold acceleration_detected
  constructor
  · intro h
    by_contra hlt
    rw [if_pos (lt_of_not_le hlt)] at h
    exact Bool.false_ne_true h
  · intro h
    rw [if_neg (not_lt.mpr h)]

/-- Claim C2: for every fusion_update call with an accelerometer sample
latched (whether or not it bootstraps), if the absolute difference between
the Q16.16 norm of the latched accelerometer and 1.0 is at least the
threshold attitude_threshold = 9175 (0.14), the attitude filter receives
exactly one correction, the gyro-only observation kfm_gyro on the raw
latched gyroscope; otherwise it receives exactly one correction, the
kfm_accel observation whose measurement rows 0..2 are the accelerometer
divided by its norm and rows 3..5 the raw latched gyroscope. -/
theorem c2_attitude_disturbance (dt : fix16_t) (s : FusionState)
    (ha : s.m_have_accelerometer = true) :
    (attitude_threshold ≤
        fix16_abs (fix16_sub (norm3 s.m_accelerometer.x s.m_accelerometer.y s.m_accelerometer.z) 65536) →
      attitudeEvents (fusion_update dt s).2 =
        [⟨FilterId.attitude, ObsId.gyro, [s.m_gyroscope.x, s.m_gyroscope.y, s.m_gyroscope.z]⟩]) ∧
    (fix16_abs (fix16_sub (norm3 s.m_accelerometer.x s.m_accelerometer.y s.m_accelerometer.z) 65536) <
        attitude_threshold →
      attitudeEvents (fusion_update dt s).2 =
        [⟨FilterId.attitude, ObsId.accel,
          [fix16_div s.m_accelerometer.x (v3d_norm s.m_accelerometer),
           fix16_div s.m_accelerometer.y (v3d_norm s.m_accelerometer),
           fix16_div s.m_accelerometer.z (v3d_norm s.m_accelerometer),
           s.m_gyroscope.x, s.m_gyroscope.y, s.m_gyroscope.z]⟩]) := by
  constructor
  · intro hth
    rw [fusion_update_attitudeEvents,
        attitude_phase_disturbed dt s ha ((acceleration_detected_iff s).mpr hth)]
  · intro hth
    have hd : acceleration_detected s = false := by
      unfold acceleration_detected
      rw [if_pos hth]
    rw [fusion_update_attitudeEvents, attitude_phase_undisturbed dt s ha hd]

/-- Claim C2 witness: a latched accelerometer of (2.0, 0, 0) has norm
2.0, distance 1.0 from unity, which reaches the threshold, and the update
call indeed applies only the gyro-only correction with the (zero) latched
gyroscope. -/
theorem c2_witness :
    (fusion_set_accelerometer ⟨131072, 0, 0⟩ fusion_initialize).m_have_accelerometer = true ∧
    attitude_threshold ≤
      fix16_abs (fix16_sub
        (norm3 (fusion_set_accelerometer ⟨131072, 0, 0⟩ fusion_initialize).m_accelerometer.x
               (fusion_set_accelerometer ⟨131072, 0, 0⟩ fusion_initialize).m_accelerometer.y
               (fusion_set_accelerometer ⟨131072, 0, 0⟩ fusion_initialize).m_accelerometer.z) 65536) ∧
    attitudeEvents (fusion_update 65536 (fusion_set_accelerometer ⟨131072, 0, 0⟩ fusion_initialize)).2 =
      [⟨FilterId.attitude, ObsId.gyro, [0, 0, 0]⟩] :=
  ⟨rfl, by decide,
   by
    rw [(c2_attitude_disturbance 65536 (fusion_set_accelerometer ⟨131072, 0, 0⟩ fusion_initialize)
          (by decide)).1 (by decide)]
    rfl⟩

/-- With a magnetometer latched but both bootstrap conditions failing, the
orientation phase still applies the magnetometer correction and leaves the
orientation bootstrap flag down. -/
theorem orientation_phase_not_ready (dt : fix16_t) (s : FusionState)
    (hm : s.m_have_magnetometer = true) (hatt : s.m_attitude_bootstrapped = false)
    (hori : s.m_orientation_bootstrapped = false) :
    orientationObs (fusion_update_orientation_phase dt s).2 = [ObsId.magneto] ∧
    (fusion_update_orientation_phase dt s).1.m_orientation_bootstrapped = false := by
  unfold fusion_update_orientation_phase
  simp only [hm, if_true]
  have hcond : ¬ (s.m_orientation_bootstrapped = false ∧ s.m_attitude_bootstrapped = true) := by
    intro hc
    rw [hatt] at hc
    exact Bool.false_ne_true hc.2
  rw [if_neg hcond]
  exact ⟨rfl, hori⟩

/-- Claim C1 counterexample: from the initialized state with only a
magnetometer latched (attitude filter not bootstrapped), the update call
applies the kfm_magneto correction to the orientation filter, not the
gyro-only correction the claim requires. -/
theorem c1_counterexample :
    (fusion_set_magnetometer ⟨65536, 0, 0⟩ fusion_initialize).m_have_magnetometer = true ∧
    (fusion_set_magnetometer ⟨65536, 0, 0⟩ fusion_initialize).m_attitude_bootstrapped = false ∧
    orientationObs (fusion_update 65536 (fusion_set_magnetometer ⟨65536, 0, 0⟩ fusion_initialize)).2 =
      [ObsId.magneto] ∧
    ¬ orientationObs (fusion_update 65536 (fusion_set_magnetometer ⟨65536, 0, 0⟩ fusion_initialize)).2 =
      [ObsId.gyro] := by
  decide

/-- Claim C1 amended: for every fusion_update call in which a magnetometer
sample is latched, no accelerometer sample is latched, and neither filter
is bootstrapped, the orientation bootstrap flag remains false, but the
orientation filter receives the kfm_magneto correction (not the gyro-only
one): the attitude-bootstrap guard in the source protects only the
orientation bootstrap write, not the choice of correction. -/
theorem c1_amended (dt : fix16_t) (s : FusionState)
    (hm : s.m_have_magnetometer = true) (hatt : s.m_attitude_bootstrapped = false)
    (hacc : s.m_have_accelerometer = false) (hori : s.m_orientation_bootstrapped = false) :
    orientationObs (fusion_update dt s).2 = [ObsId.magneto] ∧
    (fusion_update dt s).1.m_orientation_bootstrapped = false := by
  have h2m : (fusion_update_attitude_phase dt s).1.m_have_magnetometer = true := by
    rw [attitude_phase_havemag, hm]
  have h2att : (fusion_update_attitude_phase dt s).1.m_attitude_bootstrapped = false := by
    rw [attitude_phase_attflag, hatt, hacc]
    rfl
  have h2ori : (fusion_update_attitude_phase dt s).1.m_orientation_bootstrapped = false := by
    rw [attitude_phase_oriflag, hori]
  have hph := orientation_phase_not_ready dt (fusion_update_attitude_phase dt s).1 h2m h2att h2ori
  constructor
  · rw [fusion_update_orientationObs]
    exact hph.1
  · show (fusion_update_orientation_phase dt (fusion_update_attitude_phase dt s).1).1.m_orientation_bootstrapped = false
    exact hph.2

/-- Claim C1 amended, witness: the initialized state with magnetometer
(1, 0, 0) latched satisfies the hypotheses, and the update call applies
the magnetometer correction while the orientation bootstrap flag stays
false. -/
theorem c1_amended_witness :
    orientationObs (fusion_update 65536 (fusion_set_magnetometer ⟨65536, 0, 0⟩ fusion_initialize)).2 =
      [ObsId.magneto] ∧
    (fusion_update 65536 (fusion_set_magnetometer ⟨65536, 0, 0⟩ fusion_initialize)).1.m_orientation_bootstrapped =
      false :=
  c1_amended 65536 (fusion_set_magnetometer ⟨65536, 0, 0⟩ fusion_initialize)
    (by decide) (by decide) (by decide) (by decide)

/-- Claim C10: on a fusion_update call with an accelerometer latched and
the attitude filter not yet bootstrapped, the bootstrap write happens
before the disturbance check: the attitude phase runs on the state whose
attitude axis row was overwritten with the normalised accelerometer and
whose bootstrap flag is up, the flag is still up after the whole call, and
when the sample is disturbed the subsequent correction (and only it) falls
back to the gyro-only observation. -/
theorem c10_bootstrap_before_check (dt : fix16_t) (s : FusionState)
    (ha : s.m_have_accelerometer = true) (hb : s.m_attitude_bootstrapped = false) :
    (fusion_update dt s).1.m_attitude_bootstrapped = true ∧
    fusion_update_attitude_phase dt s = fusion_update_attitude dt (attitude_bootstrap s) ∧
    (attitude_bootstrap s).kf_attitude.x.c1 =
      fix16_div s.m_accelerometer.x (v3d_norm s.m_accelerometer) ∧
    (attitude_bootstrap s).kf_attitude.x.c2 =
      fix16_div s.m_accelerometer.y (v3d_norm s.m_accelerometer) ∧
    (attitude_bootstrap s).kf_attitude.x.c3 =
      fix16_div s.m_accelerometer.z (v3d_norm s.m_accelerometer) ∧
    (attitude_bootstrap s).m_attitude_bootstrapped = true ∧
    (attitude_threshold ≤
        fix16_abs (fix16_sub (norm3 s.m_accelerometer.x s.m_accelerometer.y s.m_accelerometer.z) 65536) →
      attitudeEvents (fusion_update dt s).2 =
        [⟨FilterId.attitude, ObsId.gyro, [s.m_gyroscope.x, s.m_gyroscope.y, s.m_gyroscope.z]⟩]) := by
  refine ⟨?_, ?_, rfl, rfl, rfl, rfl, ?_⟩
  · rw [fusion_update_attflag, hb, ha]
    rfl
  · unfold fusion_update_attitude_phase
    simp only [ha, if_true, hb, Bool.false_eq_true, if_false]
  · intro hth
    rw [fusion_update_attitudeEvents,
        attitude_phase_disturbed dt s ha ((acceleration_detected_iff s).mpr hth)]

/-- Claim C10 witness: the first accelerometer sample (2.0, 0, 0), whose
norm 2.0 fails the disturbance check, is still written normalised as
(1.0, 0, 0) into the attitude axis row, the bootstrap flag comes up, and
the correction applied is gyro-only. -/
theorem c10_witness :
    (fusion_set_accelerometer ⟨131072, 0, 0⟩ fusion_initialize).m_have_accelerometer = true ∧
    (fusion_set_accelerometer ⟨131072, 0, 0⟩ fusion_initialize).m_attitude_bootstrapped = false ∧
    (fusion_update 65536 (fusion_set_accelerometer ⟨131072, 0, 0⟩ fusion_initialize)).1.m_attitude_bootstrapped =
      true ∧
    (attitude_bootstrap (fusion_set_accelerometer ⟨131072, 0, 0⟩ fusion_initialize)).kf_attitude.x =
      ⟨65536, 0, 0, 0, 0, 0⟩ ∧
    attitudeEvents (fusion_update 65536 (fusion_set_accelerometer ⟨131072, 0, 0⟩ fusion_initialize)).2 =
      [⟨FilterId.attitude, ObsId.gyro, [0, 0, 0]⟩] :=
  ⟨rfl, rfl,
   (c10_bootstrap_before_check 65536 (fusion_set_accelerometer ⟨131072, 0, 0⟩ fusion_initialize)
      (by decide) (by decide)).1,
   by decide,
   by
    rw [(c10_bootstrap_before_check 65536 (fusion_set_accelerometer ⟨131072, 0, 0⟩ fusion_initialize)
          (by decide) (by decide)).2.2.2.2.2.2 (by decide)]
    rfl⟩

/-- Every API call preserves the bootstrap ordering: if orientation
implies attitude before the call, it does after. -/
theorem step_preserves_bootstrap_order (op : Op) (s : FusionState)
    (h : s.m_orientation_bootstrapped = true → s.m_attitude_bootstrapped = true) :
    (step op s).m_orientation_bootstrapped = true → (step op s).m_attitude_bootstrapped = true := by
  cases op with
  | setAccel v => exact h
  | setGyro v => exact h
  | setMag v => exact h
  | predict dt => exact h
  | fetchAngles => exact h
  | fetchQuat => exact h
  | update dt =>
    show (fusion_update dt s).1.m_orientation_bootstrapped = true →
         (fusion_update dt s).1.m_attitude_bootstrapped = true
    rw [fusion_update_attflag, fusion_update_oriflag]
    cases hacc : s.m_have_accelerometer <;>
      cases hatt : s.m_attitude_bootstrapped <;>
      cases hmag : s.m_have_magnetometer <;>
      cases hori : s.m_orientation_bootstrapped <;>
      simp_all

/-- Claim C7: in every state reachable through any sequence of setter,
predict, update and fetch calls from the initialized state, the
orientation bootstrap flag being up implies the attitude bootstrap flag is
up; the orientation filter is never bootstrapped first. -/
theorem c7_bootstrap_order (ops : List Op) :
    (run ops).m_orientation_bootstrapped = true → (run ops).m_attitude_bootstrapped = true := by
  have main : ∀ (l : List Op) (s : FusionState),
      (s.m_orientation_bootstrapped = true → s.m_attitude_bootstrapped = true) →
      ((l.foldl (fun s op => step op s) s).m_orientation_bootstrapped = true →
        (l.foldl (fun s op => step op s) s).m_attitude_bootstrapped = true) := by
    intro l
    induction l with
    | nil => intro s h; exact h
    | cons op t ih => intro s h; exact ih (step op s) (step_preserves_bootstrap_order op s h)
  exact main ops fusion_initialize (fun h => absurd h (by decide))

/-- Claim C7 witness: a run that latches a (disturbed) accelerometer and a
magnetometer and updates once ends with the orientation flag up, and the
theorem then forces the attitude flag up as well. -/
theorem c7_witness :
    (run [Op.setAccel ⟨131072, 0, 0⟩, Op.setMag ⟨0, 65536, 0⟩, Op.update 65536]).m_orientation_bootstrapped =
      true ∧
    (run [Op.setAccel ⟨131072, 0, 0⟩, Op.setMag ⟨0, 65536, 0⟩, Op.update 65536]).m_attitude_bootstrapped =
      true :=
  ⟨by decide,
   c7_bootstrap_order [Op.setAccel ⟨131072, 0, 0⟩, Op.setMag ⟨0, 65536, 0⟩, Op.update 65536]
     (by decide)⟩

/-- Claim C8: every fusion_update call ends with the accelerometer and
magnetometer have flags down, and no other operation clears a have flag:
the three setters only write their buffer and raise their own flag,
fusion_predict leaves all three have flags unchanged, and the two fetch
calls leave the whole process state unchanged. -/
theorem c8_flag_discipline :
    (∀ (dt : fix16_t) (s : FusionState),
      (fusion_update dt s).1.m_have_accelerometer = false ∧
      (fusion_update dt s).1.m_have_magnetometer = false) ∧
    (∀ (v : V3) (s : FusionState),
      fusion_set_accelerometer v s = { s with m_accelerometer := v, m_have_accelerometer := true }) ∧
    (∀ (v : V3) (s : FusionState),
      fusion_set_gyroscope v s = { s with m_gyroscope := v, m_have_gyroscope := true }) ∧
    (∀ (v : V3) (s : FusionState),
      fusion_set_magnetometer v s = { s with m_magnetometer := v, m_have_magnetometer := true }) ∧
    (∀ (dt : fix16_t) (s : FusionState),
      (fusion_predict dt s).m_have_accelerometer = s.m_have_accelerometer ∧
      (fusion_predict dt s).m_have_gyroscope = s.m_have_gyroscope ∧
      (fusion_predict dt s).m_have_magnetometer = s.m_have_magnetometer) ∧
    (∀ (f : fix16_t → fix16_t) (g : fix16_t → fix16_t → fix16_t) (s : FusionState),
      (fusion_fetch_angles f g s).2 = s) ∧
    (∀ s : FusionState, (fusion_fetch_quaternion s).2 = s) :=
  ⟨fun _ _ => ⟨rfl, rfl⟩, fun _ _ => rfl, fun _ _ => rfl, fun _ _ => rfl,
   fun _ _ => ⟨rfl, rfl, rfl⟩, fun _ _ _ => rfl, fun _ => rfl⟩
